import Mathlib

/-!
Verification of the AWS daily cost e-mail Lambda (`src/lambda_function.py`).

The handler queries Cost Explorer for month-to-date cost grouped by service,
a 30-day cost forecast and the prior-day cost, aggregates per-service spend,
renders an HTML report and sends it through SES.  We embed the handler as
pure Lean functions: monetary amounts (Python floats holding parsed decimal
strings) are modelled as rationals, Python exceptions as `Except String`,
and the two AWS collaborators (Cost Explorer, SES) as records holding the
outcome of each call the handler issues.
-/

namespace AwsCost

/-- One `Groups` entry of the month-to-date `get_cost_and_usage` response:
`result['Keys'][0]` and the parsed `result['Metrics']['UnblendedCost']['Amount']`
(lines 63-64 of `lambda_function.py`). -/
structure Group where
  key : String
  amount : ℚ
deriving DecidableEq

/-- Python dict assignment `service_costs[service_name] = cost_amount`:
overwrite in place when the key is present, otherwise append (insertion order
is preserved, as for a Python `dict`). -/
def dictInsert (d : List (String × ℚ)) (k : String) (v : ℚ) : List (String × ℚ) :=
  match d with
  | [] => [(k, v)]
  | p :: rest => if p.1 = k then (k, v) :: rest else p :: dictInsert rest k v

/-- One iteration of the aggregation loop of lines 62-67: entries with
`cost_amount > 0.0` are stored in the dict and added to the running total,
all other entries are dropped. -/
def processStep (acc : List (String × ℚ) × ℚ) (g : Group) : List (String × ℚ) × ℚ :=
  if g.amount > 0 then (dictInsert acc.1 g.key g.amount, acc.2 + g.amount) else acc

/-- The whole aggregation loop (lines 61-67), started from
`service_costs, total_cost = {}, 0.0`. -/
def processGroups (groups : List Group) : List (String × ℚ) × ℚ :=
  groups.foldl processStep ([], 0)

/-- The comparison used by `sorted(service_costs.items(), key=lambda item:
item[1], reverse=True)` (lines 69-71): `a` may precede `b` iff `b`'s amount
is at most `a`'s. -/
def sortDesc (a b : String × ℚ) : Bool := decide (b.2 ≤ a.2)

/-- `sorted_services` of lines 69-71: a stable sort of the dict items,
descending by amount. -/
def sorted_services (d : List (String × ℚ)) : List (String × ℚ) :=
  d.mergeSort sortDesc

/-- `max_cost = sorted_services[0][1] if sorted_services else 1.0` (line 72). -/
def max_cost (sorted : List (String × ℚ)) : ℚ :=
  match sorted with
  | [] => 1
  | p :: _ => p.2

/-- `bar_width = (cost / max_cost) * 100 if max_cost > 0 else 0` (line 154). -/
def bar_width (cost maxc : ℚ) : ℚ :=
  if maxc > 0 then cost / maxc * 100 else 0

/-! ### Python number formatting

`build_html_body` renders every monetary figure with the format spec `,.2f`
(thousands separators, two decimals) and every bar width with `.2f`.  We
model CPython's rounding of a value exactly representable at the given
precision: round half to even. -/

/-- Round a rational to the nearest integer, ties to the even integer
(CPython's rounding for `format`). -/
def roundHalfEven (q : ℚ) : ℤ :=
  let n := ⌊q⌋
  let r := q - n
  if r < 1/2 then n
  else if 1/2 < r then n + 1
  else if n % 2 = 0 then n else n + 1

/-- Insert a comma after every group of three characters; the input is the
digit list least-significant first. -/
def group3 : List Char → List Char
  | c1 :: c2 :: c3 :: c4 :: rest => c1 :: c2 :: c3 :: ',' :: group3 (c4 :: rest)
  | l => l

/-- Decimal rendering of a natural number with thousands separators,
as Python's `,` format flag produces. -/
def withCommas (n : Nat) : String :=
  String.mk ((group3 (toString n).data.reverse).reverse)

/-- Two-digit rendering of a cents remainder (0-99). -/
def twoDigits (n : Nat) : String :=
  if n < 10 then "0" ++ toString n else toString n

/-- Python `format(q, '.2f')`: fixed-point, two decimals. -/
def fmtFixed2 (q : ℚ) : String :=
  let c := roundHalfEven (q * 100)
  if c < 0 then "-" ++ toString (c.natAbs / 100) ++ "." ++ twoDigits (c.natAbs % 100)
  else toString (c.natAbs / 100) ++ "." ++ twoDigits (c.natAbs % 100)

/-- Python `format(q, ',.2f')`: fixed-point, two decimals, thousands
separators. -/
def fmtComma2 (q : ℚ) : String :=
  let c := roundHalfEven (q * 100)
  if c < 0 then "-" ++ withCommas (c.natAbs / 100) ++ "." ++ twoDigits (c.natAbs % 100)
  else withCommas (c.natAbs / 100) ++ "." ++ twoDigits (c.natAbs % 100)

/-! ### The HTML template (lines 93-150)

`build_html_body` renders `html_template.format(total=..., daily=...,
forecast=..., service_rows=...)`.  We embed the template as the literal
segments between the four substitution points, already `{{`/`}}`-unescaped
as `str.format` leaves them; `htmlT1 ++ fmtComma2 total ++ htmlT2 ++
fmtComma2 daily ++ htmlT3 ++ fmtComma2 forecast ++ htmlT4 ++ service_rows
++ htmlT5` is exactly the formatted template. -/

def htmlT1 : String :=
  "\n    <html>\n    <head>\n    <style>\n        body \x7b font-family: Arial, sans-serif; color: #333; margin: 0;\n               padding: 0; background-color: #f7f7f7;\x7d\n        .container \x7b max-width: 800px; margin: 20px auto; padding: 20px;\n                     border: 1px solid #ddd; border-radius: 8px;\n                     background-color: #fff; box-shadow: 0 2px 4px rgba(0,0,0,0.1); \x7d\n        .header \x7b font-size: 24px; color: #d9534f; border-bottom: 2px solid #f0f0f0;\n                  padding-bottom: 10px; margin-bottom: 20px; \x7d\n        .summary-box \x7b display: flex; justify-content: space-around;\n                       background-color: #f9f9f9; padding: 20px; text-align: center;\n                       border-radius: 8px; margin-bottom: 30px; \x7d\n        .summary-item h3 \x7b margin: 0; font-size: 16px; color: #555; font-weight: normal; \x7d\n        .summary-item p \x7b margin: 5px 0 0; font-size: 28px; font-weight: bold;\n                          color: #0275d8; \x7d\n        h2 \x7b font-size: 20px; color: #333; border-bottom: 1px solid #eee;\n             padding-bottom: 5px; \x7d\n        table \x7b width: 100%; border-collapse: collapse; margin-top: 15px;\x7d\n        th, td \x7b padding: 12px; border: 1px solid #ddd; text-align: left; \x7d\n        th \x7b background-color: #f2f2f2; \x7d\n        .bar-container \x7b width: 100%; background-color: #f1f1f1;\n                         border-radius: 4px; height: 22px; \x7d\n        .bar \x7b height: 22px; background-color: #4CAF50; border-radius: 4px;\n               text-align: right; color: white; line-height: 22px; \x7d\n    </style>\n    </head>\n    <body>\n    <div class=\"container\">\n        <div class=\"header\">AWS Cost Report</div>\n        <div class=\"summary-box\">\n            <div class=\"summary-item\">\n                <h3>Month-to-Date Cost</h3>\n                <p>$"

def htmlT2 : String :=
  "</p>\n            </div>\n            <div class=\"summary-item\">\n                <h3>Last 24h Cost</h3>\n                <p>$"

def htmlT3 : String :=
  "</p>\n            </div>\n            <div class=\"summary-item\">\n                <h3>Forecasted Monthly Cost</h3>\n                <p>$"

def htmlT4 : String :=
  "</p>\n            </div>\n        </div>\n        <h2>Service-wise Cost Breakdown</h2>\n        <table>\n            <tr>\n                <th style=\"width:40%;\">Service</th>\n                <th style=\"width:20%;\">Cost (USD)</th>\n                <th>Cost Distribution</th>\n            </tr>\n            "

def htmlT5 : String :=
  "\n        </table>\n    </div>\n    </body>\n    </html>\n    "

def rowT1 : String :=
  "\n            <tr>\n                <td>"

def rowT2 : String :=
  "</td>\n                <td style=\"text-align: right;\">$"

def rowT3 : String :=
  "</td>\n                <td>\n                    <div class=\"bar-container\">\n                        <div class=\"bar\" style=\"width: "

def rowT4 : String :=
  "%;\n                                                background-color: #5cb85c;\"></div>\n                    </div>\n                </td>\n            </tr>\n        "


/-- One iteration of the row loop of lines 153-166: the f-string with
`service`, `cost` (`,.2f`) and `bar_width` (`.2f`) substituted. -/
def service_row (maxc : ℚ) (p : String × ℚ) : String :=
  rowT1 ++ p.1 ++ rowT2 ++ fmtComma2 p.2 ++ rowT3
    ++ fmtFixed2 (bar_width p.2 maxc) ++ rowT4

/-- The `service_rows` accumulation loop of lines 152-166, starting from the
empty string. -/
def service_rows (services : List (String × ℚ)) (maxc : ℚ) : String :=
  services.foldl (fun acc p => acc ++ service_row maxc p) ""

/-- `build_html_body(total, forecast, daily, services, max_cost)`
(lines 88-169). -/
def build_html_body (total forecast daily : ℚ)
    (services : List (String × ℚ)) (maxc : ℚ) : String :=
  htmlT1 ++ fmtComma2 total ++ htmlT2 ++ fmtComma2 daily ++ htmlT3
    ++ fmtComma2 forecast ++ htmlT4 ++ service_rows services maxc ++ htmlT5

/-- Substring containment test used to state facts about the rendered
document. -/
def strContains (hay pat : String) : Bool :=
  go hay.data
where
  go : List Char → Bool
    | [] => pat.data.isEmpty
    | l@(_ :: t) => pat.data.isPrefixOf l || go t

/-! ### The handler (`lambda_handler`, lines 18-85)

Python exceptions are modelled as `Except String`; the Cost Explorer and
SES clients are records holding the outcome of each call the handler
issues this invocation (the requests' parameters — the date strings — do
not influence a given outcome, so the outcome is the datum).  `none` for a
configuration value models `os.environ.get` returning `None`. -/

/-- One `ResultsByTime` bucket of the grouped month-to-date response:
its `Groups` list (line 62). -/
structure GroupsBucket where
  groups : List Group

/-- One `ResultsByTime` bucket of the ungrouped daily response: the parsed
`['Total']['UnblendedCost']['Amount']` (line 57). -/
structure TimeBucket where
  total : ℚ

/-- Outcomes of the three Cost Explorer calls of lines 39-55: the grouped
month-to-date query, the forecast query (with `float(...['Total']['Amount'])`
already applied, line 50) and the daily query. -/
structure CEClient where
  breakdownResult : Except String (List GroupsBucket)
  forecastResult : Except String ℚ
  dailyResult : Except String (List TimeBucket)

/-- Outcome of `ses.send_email` (lines 177-184): a `MessageId` on success,
an exception otherwise. -/
structure SESClient where
  sendResult : Except String String

/-- The invocation context: only `invoked_function_arn` is read (line 27). -/
structure LambdaContext where
  invoked_function_arn : String

/-- `os.environ.get(k)`: `none` when the variable is absent. -/
def environGet (env : List (String × String)) (k : String) : Option String :=
  (env.find? (fun p => p.1 == k)).map Prod.snd

/-- `sender_email = os.environ.get('SENDER_EMAIL')` (line 25): no default
argument is supplied, so an absent variable yields `None`. -/
def sender_email (env : List (String × String)) : Option String :=
  environGet env "SENDER_EMAIL"

/-- `recipient_email = os.environ.get('RECIPIENT_EMAIL')` (line 26): no
default argument is supplied, so an absent variable yields `None`. -/
def recipient_email (env : List (String × String)) : Option String :=
  environGet env "RECIPIENT_EMAIL"

/-- `daily_cost = float(daily_cost_response['ResultsByTime'][0]['Total']
['UnblendedCost']['Amount']) if daily_cost_response['ResultsByTime'] else
0.0` (lines 56-58).  The `[0]` index is modelled as fallible, so the theorem
that the empty case yields `ok 0` really shows no error is raised. -/
def daily_cost_of (resultsByTime : List TimeBucket) : Except String ℚ :=
  if resultsByTime.isEmpty then Except.ok 0
  else
    match resultsByTime.head? with
    | some b => Except.ok b.total
    | none => Except.error "IndexError: list index out of range"

/-- The addresses, subject and body the handler hands to `send_email`
(line 79). -/
structure PreparedEmail where
  sender : Option String
  recipient : Option String
  subject : String
  body : String

/-- Lines 24-78 of `lambda_handler`: everything inside the `try` block up to
(not including) the `send_email` call, in source order — configuration,
account id, the three Cost Explorer calls, the aggregation loop, sorting,
`max_cost`, subject and body.  Any exception short-circuits as `error`.
`endOfPeriod` stands for the `today.strftime('%Y-%m-%d')` date string. -/
def handlerPrep (env : List (String × String)) (ctx : LambdaContext)
    (endOfPeriod : String) (ce : CEClient) : Except String PreparedEmail := do
  let sender := sender_email env
  let recipient := recipient_email env
  let aws_account_id ← match (ctx.invoked_function_arn.splitOn ":").get? 4 with
    | some s => Except.ok s
    | none => Except.error "IndexError: list index out of range"
  let service_breakdown ← ce.breakdownResult
  let forecasted_cost ← ce.forecastResult
  let dailyBuckets ← ce.dailyResult
  let daily_cost ← daily_cost_of dailyBuckets
  let firstBucket ← match service_breakdown.head? with
    | some b => Except.ok b
    | none => Except.error "IndexError: list index out of range"
  let (service_costs, total_cost) := processGroups firstBucket.groups
  let sorted := sorted_services service_costs
  let maxc := max_cost sorted
  let subject := "AWS Cost Summary for " ++ aws_account_id ++ " - " ++ endOfPeriod
  let body := build_html_body total_cost forecasted_cost daily_cost sorted maxc
  Except.ok { sender := sender, recipient := recipient,
              subject := subject, body := body }

/-- `send_email` (lines 172-188): on success the message id is printed and
the function returns normally; on failure the error is printed and
re-raised (`raise e`), i.e. it propagates to the caller. -/
def send_email (ses : SESClient) (_source _to : Option String)
    (_subject _body : String) : Except String Unit :=
  match ses.sendResult with
  | Except.ok _msgId => Except.ok ()
  | Except.error e => Except.error e

/-- The dictionary `lambda_handler` returns (lines 80 and 85). -/
structure HandlerResult where
  statusCode : Nat
  body : String
deriving DecidableEq

/-- `lambda_handler` (lines 18-85).  The first component is the value the
function returns — typed `Except` so that an escaping exception would be
visible as `error` — and the second records whether `ses.send_email` was
invoked.  The whole `try` body, the `send_email` call included, is guarded
by the broad `except Exception` of lines 83-85, which converts any
exception into a `{'statusCode': 500, ...}` dictionary. -/
def lambda_handler (env : List (String × String)) (ctx : LambdaContext)
    (endOfPeriod : String) (ce : CEClient) (ses : SESClient) :
    Except String HandlerResult × Bool :=
  match handlerPrep env ctx endOfPeriod ce with
  | Except.error e =>
    (Except.ok ⟨500, "An error occurred: " ++ e⟩, false)
  | Except.ok p =>
    match send_email ses p.sender p.recipient p.subject p.body with
    | Except.ok _ => (Except.ok ⟨200, "Email sent successfully!"⟩, true)
    | Except.error e =>
      (Except.ok ⟨500, "An error occurred: " ++ e⟩, true)

/-! ### Concrete fixtures used by witnesses and counterexamples -/

/-- A small month-to-date `Groups` list: two positive entries and one
zero-cost entry. -/
def gsA : List Group :=
  [⟨"AmazonEC2", 5⟩, ⟨"AmazonS3", 2⟩, ⟨"Tax", 0⟩]

/-- An environment carrying both configuration variables. -/
def envA : List (String × String) :=
  [("SENDER_EMAIL", "sender@example.com"),
   ("RECIPIENT_EMAIL", "recipient@example.com")]

/-- An environment carrying neither configuration variable. -/
def envOther : List (String × String) :=
  [("OTHER_VAR", "x")]

/-- A context whose function ARN has the account id as its 5th
colon-delimited segment. -/
def ctxA : LambdaContext :=
  ⟨"arn:aws:lambda:ap-southeast-1:123456789012:function:dailyCostEmail"⟩

/-- A Cost Explorer client whose three calls all succeed. -/
def ceA : CEClient :=
  ⟨Except.ok [⟨gsA⟩], Except.ok 10, Except.ok [⟨3⟩]⟩

/-- A Cost Explorer client whose forecast call raises. -/
def ceFErr : CEClient :=
  ⟨Except.ok [⟨gsA⟩], Except.error "AccessDeniedException", Except.ok [⟨3⟩]⟩

/-- An SES client whose send succeeds. -/
def sesOk : SESClient := ⟨Except.ok "msg-0001"⟩

/-- An SES client whose send raises. -/
def sesErr : SESClient := ⟨Except.error "SES failure"⟩

/-- The service list of the worked rendering example. -/
def servicesC8 : List (String × ℚ) := [("EC2", 800), ("S3", 434.5)]

/-- The document of the worked rendering example: total 1234.5, forecast
2000, daily 42.1, denominator 800. -/
def htmlC8 : String := build_html_body 1234.5 2000 42.1 servicesC8 800

/-- The mathematical description of what the aggregation loop retains:
the `(key, amount)` pairs of the entries with positive amount, in query
order. -/
def filteredPairs (gs : List Group) : List (String × ℚ) :=
  (gs.filter fun g => g.amount > 0).map fun g => (g.key, g.amount)

/-! ### Helper lemmas -/

theorem sortDesc_trans (a b c : String × ℚ) (h1 : sortDesc a b) (h2 : sortDesc b c) :
    sortDesc a c := by
  simp only [sortDesc, decide_eq_true_eq] at *
  exact le_trans h2 h1

theorem sortDesc_total (a b : String × ℚ) : sortDesc a b || sortDesc b a := by
  simp only [sortDesc, Bool.or_eq_true, decide_eq_true_eq]
  exact le_total b.2 a.2

theorem sorted_services_pairwise (d : List (String × ℚ)) :
    (sorted_services d).Pairwise fun a b => b.2 ≤ a.2 := by
  have h : (d.mergeSort sortDesc).Pairwise fun a b => sortDesc a b = true :=
    List.sorted_mergeSort sortDesc_trans sortDesc_total d
  exact h.imp fun hab => by simpa [sortDesc] using hab

theorem sorted_services_perm (d : List (String × ℚ)) :
    (sorted_services d).Perm d :=
  List.mergeSort_perm d sortDesc

theorem dictInsert_append_of_fresh (d : List (String × ℚ)) (k : String) (v : ℚ)
    (h : k ∉ d.map Prod.fst) : dictInsert d k v = d ++ [(k, v)] := by
  induction d with
  | nil => rfl
  | cons p rest ih =>
    simp only [List.map_cons, List.mem_cons, not_or] at h
    rw [dictInsert, if_neg fun hh => h.1 hh.symm, ih h.2]
    rfl

theorem mem_dictInsert (d : List (String × ℚ)) (k : String) (v : ℚ)
    (p : String × ℚ) (h : p ∈ dictInsert d k v) : p = (k, v) ∨ p ∈ d := by
  induction d with
  | nil => simpa [dictInsert] using h
  | cons q rest ih =>
    rw [dictInsert] at h
    by_cases hq : q.1 = k
    · rw [if_pos hq] at h
      rcases List.mem_cons.mp h with h1 | h1
      · exact Or.inl h1
      · exact Or.inr (List.mem_cons_of_mem q h1)
    · rw [if_neg hq] at h
      rcases List.mem_cons.mp h with h1 | h1
      · exact Or.inr (h1 ▸ List.mem_cons_self q rest)
      · rcases ih h1 with h2 | h2
        · exact Or.inl h2
        · exact Or.inr (List.mem_cons_of_mem q h2)

theorem processGroups_go (gs : List Group) :
    ∀ acc : List (String × ℚ) × ℚ,
      (gs.map Group.key).Nodup →
      (∀ g ∈ gs, g.key ∉ acc.1.map Prod.fst) →
      gs.foldl processStep acc
        = (acc.1 ++ filteredPairs gs,
           acc.2 + ((gs.filter fun g => g.amount > 0).map Group.amount).sum) := by
  induction gs with
  | nil => intro acc _ _; simp [filteredPairs]
  | cons g rest ih =>
    intro acc hnd hdisj
    simp only [List.map_cons, List.nodup_cons] at hnd
    rw [List.foldl_cons]
    by_cases hg : g.amount > 0
    · have hfresh : g.key ∉ acc.1.map Prod.fst := hdisj g (List.mem_cons_self g rest)
      have hstep : processStep acc g = (acc.1 ++ [(g.key, g.amount)], acc.2 + g.amount) := by
        simp [processStep, hg, dictInsert_append_of_fresh _ _ _ hfresh]
      rw [hstep, ih _ hnd.2 ?fresh]
      case fresh =>
        intro g' hg'
        simp only [List.map_append, List.map_cons, List.map_nil, List.mem_append,
          List.mem_singleton, not_or]
        refine ⟨hdisj g' (List.mem_cons_of_mem g hg'), fun hk => ?_⟩
        exact hnd.1 (hk ▸ List.mem_map_of_mem Group.key hg')
      simp [filteredPairs, List.filter_cons, hg, add_assoc]
    · have hstep : processStep acc g = acc := by simp [processStep, hg]
      rw [hstep, ih _ hnd.2 fun g' hg' => hdisj g' (List.mem_cons_of_mem g hg')]
      simp [filteredPairs, List.filter_cons, hg]

theorem processGroups_pos (gs : List Group) :
    ∀ p ∈ (processGroups gs).1, 0 < p.2 := by
  suffices h : ∀ acc : List (String × ℚ) × ℚ, (∀ p ∈ acc.1, 0 < p.2) →
      ∀ p ∈ (gs.foldl processStep acc).1, 0 < p.2 from h ([], 0) (by simp)
  induction gs with
  | nil => intro acc hacc; simpa using hacc
  | cons g rest ih =>
    intro acc hacc
    rw [List.foldl_cons]
    refine ih _ fun p hp => ?_
    by_cases hg : g.amount > 0
    · simp only [processStep, if_pos hg] at hp
      rcases mem_dictInsert _ _ _ _ hp with rfl | hp'
      · exact hg
      · exact hacc p hp'
    · simp only [processStep, if_neg hg] at hp
      exact hacc p hp

/-! ### The claims -/

/-- C2: the sorted service sequence produced by the aggregation step is
non-increasing in amount: for all adjacent pairs in `sorted_services d`,
the later amount is at most the earlier. -/
theorem sorted_services_nonincreasing (d : List (String × ℚ)) :
    List.Chain' (fun a b => b.2 ≤ a.2) (sorted_services d) :=
  (sorted_services_pairwise d).chain'

/-- C4: when the daily-cost query yields no time buckets, the prior-24h
cost step yields exactly `0.0` and raises no error. -/
theorem daily_cost_empty_ok : daily_cost_of [] = Except.ok 0 := rfl

/-- C9: for every environment, context, date and collaborator outcome —
including a failing SES send, whose error `send_email` re-raises — the
handler never propagates an exception: it returns a dictionary whose
`statusCode` is 200 or 500. -/
theorem handler_always_returns_result (env : List (String × String))
    (ctx : LambdaContext) (eop : String) (ce : CEClient) (ses : SESClient) :
    ∃ r, (lambda_handler env ctx eop ce ses).1 = Except.ok r
      ∧ (r.statusCode = 200 ∨ r.statusCode = 500) := by
  cases hp : handlerPrep env ctx eop ce with
  | error e =>
    exact ⟨⟨500, "An error occurred: " ++ e⟩, by simp [lambda_handler, hp], Or.inr rfl⟩
  | ok p =>
    cases hs : send_email ses p.sender p.recipient p.subject p.body with
    | ok u =>
      exact ⟨⟨200, "Email sent successfully!"⟩, by simp [lambda_handler, hp, hs], Or.inl rfl⟩
    | error e =>
      exact ⟨⟨500, "An error occurred: " ++ e⟩, by simp [lambda_handler, hp, hs], Or.inr rfl⟩

/-- C10: the bar-width computation never divides by zero: whenever the
scaling denominator is ≤ 0, every rendered width is the literal 0 (shown
as `0.00`), not the result of a division. -/
theorem bar_width_nonpos_denominator_zero (services : List (String × ℚ))
    (m : ℚ) (hm : m ≤ 0) :
    ∀ p ∈ services, bar_width p.2 m = 0 ∧ fmtFixed2 (bar_width p.2 m) = "0.00" := by
  intro p _
  have h0 : ¬ m > 0 := not_lt.mpr hm
  have hw : bar_width p.2 m = 0 := by simp [bar_width, h0]
  exact ⟨hw, by rw [hw]; with_unfolding_all rfl⟩

theorem bar_width_nonpos_denominator_zero_witness :
    (0 : ℚ) ≤ 0 ∧ bar_width (5 : ℚ) 0 = 0 ∧ fmtFixed2 (bar_width (5 : ℚ) 0) = "0.00" := by
  have h := bar_width_nonpos_denominator_zero [("AmazonEC2", 5)] 0 le_rfl
    ("AmazonEC2", 5) (List.mem_singleton.mpr rfl)
  exact ⟨le_rfl, h.1, h.2⟩

/-- C1: with the service keys of the query's group entries distinct (as the
group-by-service query returns them), the aggregation loop retains exactly
the entries with positive amount, the reported total is the sum of exactly
the retained amounts, and every row of the sorted (rendered) sequence is a
retained entry — no dropped entry appears. -/
theorem aggregation_filters_and_totals (gs : List Group)
    (hkeys : (gs.map Group.key).Nodup) :
    (processGroups gs).1 = filteredPairs gs
    ∧ (processGroups gs).2 = ((gs.filter fun g => g.amount > 0).map Group.amount).sum
    ∧ ∀ p ∈ sorted_services (processGroups gs).1, p ∈ filteredPairs gs ∧ 0 < p.2 := by
  have h := processGroups_go gs ([], 0) hkeys (by simp)
  have h1 : (processGroups gs).1 = filteredPairs gs := by
    rw [processGroups, h]; simp
  have h2 : (processGroups gs).2
      = ((gs.filter fun g => g.amount > 0).map Group.amount).sum := by
    rw [processGroups, h]; simp
  refine ⟨h1, h2, fun p hp => ?_⟩
  have hmem : p ∈ (processGroups gs).1 := (sorted_services_perm _).subset hp
  rw [h1] at hmem
  refine ⟨hmem, ?_⟩
  simp only [filteredPairs, List.mem_map, List.mem_filter, decide_eq_true_eq] at hmem
  obtain ⟨g, ⟨-, hg⟩, rfl⟩ := hmem
  exact hg

theorem aggregation_filters_and_totals_witness :
    (gsA.map Group.key).Nodup ∧ (processGroups gsA).1 = filteredPairs gsA :=
  ⟨by decide, (aggregation_filters_and_totals gsA (by decide)).1⟩

/-- Core of C3, stated for any retained list with positive amounts: the
scaling denominator is 1 on the empty list and the maximum amount
otherwise, and every bar width lies in [0, 100]. -/
theorem max_head_spec (d : List (String × ℚ)) (hpos : ∀ p ∈ d, 0 < p.2) :
    (d = [] → max_cost (sorted_services d) = 1)
    ∧ (d ≠ [] → max_cost (sorted_services d) ∈ d.map Prod.snd
        ∧ ∀ a ∈ d.map Prod.snd, a ≤ max_cost (sorted_services d))
    ∧ ∀ p ∈ sorted_services d,
        0 ≤ bar_width p.2 (max_cost (sorted_services d))
        ∧ bar_width p.2 (max_cost (sorted_services d)) ≤ 100 := by
  cases hs : sorted_services d with
  | nil =>
    have hd : d = [] := ((hs ▸ sorted_services_perm d : ([] : List (String × ℚ)).Perm d)).symm.eq_nil
    refine ⟨fun _ => rfl, fun hne => absurd hd hne, ?_⟩
    intro p hp
    exact absurd hp (List.not_mem_nil p)
  | cons q t =>
    have hperm : (q :: t).Perm d := hs ▸ sorted_services_perm d
    have hq : q ∈ d := hperm.subset (List.mem_cons_self q t)
    have hqpos : 0 < q.2 := hpos q hq
    have hpair := sorted_services_pairwise d
    rw [hs] at hpair
    have hhead : ∀ b ∈ t, b.2 ≤ q.2 := (List.pairwise_cons.mp hpair).1
    have hle : ∀ p ∈ d, p.2 ≤ q.2 := by
      intro p hpd
      rcases List.mem_cons.mp (hperm.mem_iff.mpr hpd) with rfl | hpt
      · exact le_rfl
      · exact hhead p hpt
    refine ⟨fun hd0 => absurd (hd0 ▸ hq) (List.not_mem_nil q), fun _ => ⟨?_, ?_⟩, ?_⟩
    · exact List.mem_map_of_mem Prod.snd hq
    · intro a ha
      obtain ⟨p, hpd, rfl⟩ := List.mem_map.mp ha
      exact hle p hpd
    · intro p hp
      have hpd : p ∈ d := hperm.subset hp
      have hppos : 0 < p.2 := hpos p hpd
      have hple : p.2 ≤ q.2 := hle p hpd
      have hbw : bar_width p.2 (max_cost (q :: t)) = p.2 / q.2 * 100 := by
        simp [bar_width, max_cost, hqpos]
      rw [hbw]
      constructor
      · exact mul_nonneg (div_nonneg hppos.le hqpos.le) (by norm_num)
      · calc p.2 / q.2 * 100 ≤ 1 * 100 :=
              mul_le_mul_of_nonneg_right ((div_le_one hqpos).mpr hple) (by norm_num)
          _ = 100 := one_mul 100

/-- C3: along the handler pipeline, the scaling denominator `max_cost`
equals the maximum retained amount when the retained list is non-empty and
exactly 1.0 when it is empty, and every bar width `(amount / denominator)
* 100` computed during rendering lies in [0, 100]. -/
theorem scaling_denominator_and_bar_widths (gs : List Group) :
    ((processGroups gs).1 = [] →
        max_cost (sorted_services (processGroups gs).1) = 1)
    ∧ ((processGroups gs).1 ≠ [] →
        max_cost (sorted_services (processGroups gs).1)
            ∈ (processGroups gs).1.map Prod.snd
        ∧ ∀ a ∈ (processGroups gs).1.map Prod.snd,
            a ≤ max_cost (sorted_services (processGroups gs).1))
    ∧ ∀ p ∈ sorted_services (processGroups gs).1,
        0 ≤ bar_width p.2 (max_cost (sorted_services (processGroups gs).1))
        ∧ bar_width p.2 (max_cost (sorted_services (processGroups gs).1)) ≤ 100 :=
  max_head_spec _ (processGroups_pos gs)

theorem scaling_denominator_and_bar_widths_witness :
    (processGroups gsA).1 ≠ []
    ∧ max_cost (sorted_services (processGroups gsA).1)
        ∈ (processGroups gsA).1.map Prod.snd :=
  ⟨by decide, ((scaling_denominator_and_bar_widths gsA).2.1 (by decide)).1⟩

theorem handlerPrep_forecast_error (env : List (String × String)) (ctx : LambdaContext)
    (eop : String) (ce : CEClient) (e : String)
    (h : ce.forecastResult = Except.error e) :
    ∃ e2, handlerPrep env ctx eop ce = Except.error e2 := by
  unfold handlerPrep
  cases harn : (ctx.invoked_function_arn.splitOn ":").get? 4 with
  | none =>
    exact ⟨"IndexError: list index out of range",
      by simp [harn, Bind.bind, Except.bind]⟩
  | some s =>
    cases hb : ce.breakdownResult with
    | error eb => exact ⟨eb, by simp [harn, hb, Bind.bind, Except.bind]⟩
    | ok lb => exact ⟨e, by simp [harn, hb, h, Bind.bind, Except.bind]⟩

/-- C5: when the forecast query raises, the handler returns a structured
500 result and the SES send is never invoked. -/
theorem forecast_error_returns_500_no_send (env : List (String × String))
    (ctx : LambdaContext) (eop : String) (ce : CEClient) (ses : SESClient)
    (e : String) (h : ce.forecastResult = Except.error e) :
    (lambda_handler env ctx eop ce ses).2 = false
    ∧ ∃ msg, (lambda_handler env ctx eop ce ses).1 = Except.ok ⟨500, msg⟩ := by
  obtain ⟨e2, hp⟩ := handlerPrep_forecast_error env ctx eop ce e h
  exact ⟨by simp [lambda_handler, hp],
    ⟨"An error occurred: " ++ e2, by simp [lambda_handler, hp]⟩⟩

theorem forecast_error_returns_500_no_send_witness :
    ceFErr.forecastResult = Except.error "AccessDeniedException"
    ∧ (lambda_handler envA ctxA "2026-10-12" ceFErr sesOk).2 = false
    ∧ ∃ msg, (lambda_handler envA ctxA "2026-10-12" ceFErr sesOk).1
        = Except.ok ⟨500, msg⟩ := by
  have h := forecast_error_returns_500_no_send envA ctxA "2026-10-12" ceFErr sesOk
    "AccessDeniedException" rfl
  exact ⟨rfl, h.1, h.2⟩

/-- C6 counterexample: a concrete invocation in which aggregation succeeds
and the SES send raises.  The handler RETURNS a 500 dictionary — the
re-raised send error is caught by the broad `except` of lines 83-85 and
swallowed into a returned result, it does not propagate out of
`lambda_handler` as an unhandled invocation failure. -/
theorem send_error_swallowed_counterexample :
    lambda_handler envA ctxA "2026-10-12" ceA sesErr
      = (Except.ok ⟨500, "An error occurred: SES failure"⟩, true) := by
  with_unfolding_all rfl

/-- C6 (amended): when aggregation succeeds and the SES send raises, the
error is logged and re-raised by `send_email` itself, but the handler's
top-level `except` catches it, so the invocation returns a structured 500
result (the send having been invoked) instead of failing unhandled. -/
theorem send_error_reraised_then_caught (env : List (String × String))
    (ctx : LambdaContext) (eop : String) (ce : CEClient) (ses : SESClient)
    (e : String) (hprep : (handlerPrep env ctx eop ce).isOk = true)
    (hsend : ses.sendResult = Except.error e) :
    (∀ src dst subj bod, send_email ses src dst subj bod = Except.error e)
    ∧ lambda_handler env ctx eop ce ses
        = (Except.ok ⟨500, "An error occurred: " ++ e⟩, true) := by
  have hse : ∀ src dst subj bod, send_email ses src dst subj bod = Except.error e := by
    intro src dst subj bod
    simp [send_email, hsend]
  refine ⟨hse, ?_⟩
  cases hp : handlerPrep env ctx eop ce with
  | error e2 => rw [hp] at hprep; simp [Except.isOk, Except.toBool] at hprep
  | ok p => simp [lambda_handler, hp, hse]

theorem send_error_reraised_then_caught_witness :
    (handlerPrep envA ctxA "2026-10-12" ceA).isOk = true
    ∧ sesErr.sendResult = Except.error "SES failure"
    ∧ lambda_handler envA ctxA "2026-10-12" ceA sesErr
        = (Except.ok ⟨500, "An error occurred: SES failure"⟩, true) := by
  have h := send_error_reraised_then_caught envA ctxA "2026-10-12" ceA sesErr
    "SES failure" (by with_unfolding_all rfl) rfl
  exact ⟨by with_unfolding_all rfl, rfl, h.2⟩

/-- C7 counterexample: with an empty environment (both variables absent)
the sender and recipient the handler hands to the send step are `none` —
`os.environ.get` is called without a default argument, so nothing falls
back to a hard-coded address. -/
theorem env_absent_no_default_counterexample :
    Except.map (fun p => (p.sender, p.recipient))
        (handlerPrep [] ctxA "2026-10-12" ceA)
      = Except.ok (none, none) := by
  with_unfolding_all rfl

/-- C7 (amended): when `SENDER_EMAIL` is absent from the environment the
sender address used is `None`, and likewise `RECIPIENT_EMAIL`; there is no
hard-coded fallback. -/
theorem env_absent_yields_none (env : List (String × String))
    (hs : ∀ p ∈ env, p.1 ≠ "SENDER_EMAIL")
    (hr : ∀ p ∈ env, p.1 ≠ "RECIPIENT_EMAIL") :
    sender_email env = none ∧ recipient_email env = none := by
  constructor
  · simp only [sender_email, environGet]
    rw [List.find?_eq_none.mpr fun p hp => by simpa using hs p hp]
    rfl
  · simp only [recipient_email, environGet]
    rw [List.find?_eq_none.mpr fun p hp => by simpa using hr p hp]
    rfl

theorem env_absent_yields_none_witness :
    (∀ p ∈ envOther, p.1 ≠ "SENDER_EMAIL")
    ∧ sender_email envOther = none ∧ recipient_email envOther = none := by
  have h := env_absent_yields_none envOther (by decide) (by decide)
  exact ⟨by decide, h.1, h.2⟩

set_option maxRecDepth 100000 in
/-- C8: for total 1234.5, forecast 2000, daily 42.1, services
EC2 → 800 and S3 → 434.5 with denominator 800, the rendered document shows
the month-to-date total as `$1,234.50` and EC2's bar width as `100.00%`;
S3's bar width is exactly 54.3125 % — within 0.01 of the spec's ≈ 54.32 —
and is rendered as `54.31%` in S3's row. -/
theorem concrete_render_check :
    strContains htmlC8 "$1,234.50" = true
    ∧ bar_width 800 800 = 100
    ∧ strContains (service_row 800 ("EC2", 800)) "width: 100.00%" = true
    ∧ bar_width (434.5 : ℚ) 800 = 54.3125
    ∧ |bar_width (434.5 : ℚ) 800 - 54.32| ≤ 1 / 100
    ∧ strContains (service_row 800 ("S3", (434.5 : ℚ))) "width: 54.31%" = true := by
  refine ⟨?_, ?_, ?_, ?_, ?_, ?_⟩
  · with_unfolding_all rfl
  · with_unfolding_all rfl
  · with_unfolding_all rfl
  · with_unfolding_all rfl
  · have h : bar_width (434.5 : ℚ) 800 = 54.3125 := by with_unfolding_all rfl
    rw [h]
    norm_num [abs_le]
  · with_unfolding_all rfl

end AwsCost
